import Mathlib

/-!
Shallow embedding of the karte classroom analysis program (src/karte00.py):
the interaction classifier, the interaction graph builder, the
participation analyzer, the suggestion engine and the relationship store
list operation, together with theorems settling the specification claims.
-/

/-- One transcript row with the columns 発言番号, 発言者, 発言内容. -/
structure Utterance where
  num : Nat
  speaker : String
  content : String
deriving DecidableEq

/-- One karte line parsed into 生徒名 and メモ. -/
structure KarteEntry where
  student : String
  note : String
deriving DecidableEq

/-- Interaction type tags 質問, 同意, 反対 used by the classifier. -/
inductive IType where
  | question
  | agreement
  | disagreement
deriving DecidableEq

/-- One classified interaction between two adjacent utterances. -/
structure InteractionEvent where
  type : IType
  source : String
  target : String
  content : String
  response : Option String
deriving DecidableEq

/-- Helper for substring search: the first list is a leading block of the second. -/
def occursAt : List Char → List Char → Bool
  | [], _ => true
  | _ :: _, [] => false
  | a :: as, b :: bs => a == b && occursAt as bs

/-- Substring occurrence on character lists. -/
def occursIn (t : List Char) : List Char → Bool
  | [] => occursAt t []
  | b :: bs => occursAt t (b :: bs) || occursIn t bs

/-- Python membership test of a word inside a content string. -/
def strContains (s t : String) : Bool := occursIn t.toList s.toList

/-- Python test any word of the list occurring in the content. -/
def containsAny (content : String) (words : List String) : Bool :=
  words.any (fun w => strContains content w)

/-- Question trigger tokens from line 94. -/
def questionWords : List String := ["？", "?", "どう", "なぜ", "どこ", "いつ", "だれ"]

/-- Agreement trigger tokens from line 103. -/
def agreementWords : List String := ["そう", "はい", "同じ", "賛成"]

/-- Disagreement trigger tokens from line 109. -/
def disagreementWords : List String := ["違う", "でも", "しかし", "反対"]

/-- The reserved teacher speaker sentinel. -/
def teacher : String := "教師"

/-- Events contributed by one adjacent utterance pair in
analyze_student_interactions, lines 92 to 114: the pair is skipped when
either speaker is the teacher; the question check on the first utterance is
an independent if, while the agreement and disagreement checks on the
second utterance form an if elif chain. -/
def pairEvents (s1 c1 s2 c2 : String) : List InteractionEvent :=
  if s1 ≠ teacher ∧ s2 ≠ teacher then
    (if containsAny c1 questionWords then
        [⟨IType.question, s1, s2, c1, some c2⟩]
     else []) ++
    (if containsAny c2 agreementWords then
        [⟨IType.agreement, s2, s1, c2, none⟩]
     else if containsAny c2 disagreementWords then
        [⟨IType.disagreement, s2, s1, c2, none⟩]
     else [])
  else []

/-- The classifier loop of lines 85 to 116 over all adjacent pairs. The
python function groups the same events into a dict keyed by source speaker;
the graph builder consumes every event of that dict, and the flat event
list below lists them in the order the loop creates them. -/
def analyze_student_interactions : List Utterance → List InteractionEvent
  | u :: v :: rest =>
      pairEvents u.speaker u.content v.speaker v.content
        ++ analyze_student_interactions (v :: rest)
  | _ => []

/-- Attributes stored on one undirected graph edge. -/
structure EdgeData where
  weight : Nat
  types : List IType
deriving DecidableEq

/-- Unordered equality of speaker pairs: the edge identity of nx.Graph. -/
def pairMatches (p q : String × String) : Bool :=
  (p.1 == q.1 && p.2 == q.2) || (p.1 == q.2 && p.2 == q.1)

/-- The source and target pair of an event. -/
def epair (e : InteractionEvent) : String × String := (e.source, e.target)

/-- One step of the edge aggregation loop, lines 389 to 393: when the graph
already has the edge, increment its weight and append the type, otherwise
add a fresh edge of weight one carrying that single type. -/
def updateEdge (e : InteractionEvent) :
    List ((String × String) × EdgeData) → List ((String × String) × EdgeData)
  | [] => [(epair e, ⟨1, [e.type]⟩)]
  | (q, d) :: rest =>
      if pairMatches q (epair e) then
        (q, ⟨d.weight + 1, d.types ++ [e.type]⟩) :: rest
      else
        (q, d) :: updateEdge e rest

/-- The edge list of the interaction graph built by folding the aggregation
step over the event list, lines 383 to 400. -/
def buildGraph (events : List InteractionEvent) : List ((String × String) × EdgeData) :=
  events.foldl (fun g e => updateEdge e g) []

/-- Lookup of the edge joining an unordered pair of students. -/
def lookupEdge (g : List ((String × String) × EdgeData)) (p : String × String) :
    Option EdgeData :=
  match g with
  | [] => none
  | (q, d) :: rest => if pairMatches q p then some d else lookupEdge rest p

/-- Number of events whose unordered source and target pair is the given pair. -/
def countPair (events : List InteractionEvent) (p : String × String) : Nat :=
  (events.filter (fun e => pairMatches (epair e) p)).length

/-- Type tags of the events whose unordered pair is the given pair, in list order. -/
def typesOf (events : List InteractionEvent) (p : String × String) : List IType :=
  (events.filter (fun e => pairMatches (epair e) p)).map (fun e => e.type)

/-- Weight of the edge joining two students, zero when absent. -/
def graphWeight (g : List ((String × String) × EdgeData)) (a b : String) : Nat :=
  match lookupEdge g (a, b) with
  | some d => d.weight
  | none => 0

/-- Multiset of type tags on the edge joining two students, empty when absent. -/
def graphTypes (g : List ((String × String) × EdgeData)) (a b : String) : Multiset IType :=
  match lookupEdge g (a, b) with
  | some d => (d.types : Multiset IType)
  | none => 0

/-- Node membership of the rendered graph: the students added upfront at
lines 379 to 380 plus every endpoint of an aggregated edge. -/
def nodeMem (students : List String) (g : List ((String × String) × EdgeData))
    (x : String) : Bool :=
  students.contains x || g.any (fun pd => pd.1.1 == x || pd.1.2 == x)

/-- First occurrence deduplication, as pandas unique applied to a column. -/
def uniqueList : List String → List String
  | [] => []
  | x :: xs => x :: (uniqueList xs).filter (fun y => y != x)

/-- The non teacher speaker column of the transcript. -/
def nonTeacherSpeakers (df : List Utterance) : List String :=
  (df.filter (fun u => u.speaker != teacher)).map (fun u => u.speaker)

/-- Line 216: distinct non teacher speakers of the transcript. -/
def students_in_class (df : List Utterance) : List String :=
  uniqueList (nonTeacherSpeakers df)

/-- pandas value_counts: one entry per distinct value with its count. The
source uses only the index set and the bag of counts, neither of which
depends on the descending sort that pandas applies, so entries are kept in
first occurrence order here. -/
def value_counts (l : List String) : List (String × Nat) :=
  (uniqueList l).map (fun s => (s, l.count s))

/-- Lines 558 and 590: value counts of the non teacher speaker column. -/
def student_participation (df : List Utterance) : List (String × Nat) :=
  value_counts (nonTeacherSpeakers df)

/-- Line 591: silent students exactly as the source computes them, keeping
the members of students_in_class absent from the value_counts index. -/
def silent_students (df : List Utterance) : List String :=
  (students_in_class df).filter
    (fun s => !((student_participation df).any (fun p => p.1 == s)))

/-- Lexicographic code point order on character lists, the Python string
order used by sorted. -/
def charsLe : List Char → List Char → Bool
  | [], _ => true
  | _ :: _, [] => false
  | a :: as, b :: bs =>
      if a.toNat < b.toNat then true
      else if b.toNat < a.toNat then false
      else charsLe as bs

/-- String comparison on code points. -/
def strLe (s t : String) : Bool := charsLe s.toList t.toList

/-- Insertion step of a stable ascending string sort. -/
def insertSorted (x : String) : List String → List String
  | [] => [x]
  | y :: ys => if strLe x y then x :: y :: ys else y :: insertSorted x ys

/-- Python sorted on strings. -/
def sortStrings (l : List String) : List String := l.foldr insertSorted []

/-- Line 217: distinct student names of the karte. -/
def students_in_karte (dk : List KarteEntry) : List String :=
  uniqueList (dk.map (fun k => k.student))

/-- Line 218: the sorted set union of transcript and karte students. -/
def all_students (df : List Utterance) (dk : List KarteEntry) : List String :=
  sortStrings (uniqueList (students_in_class df ++ students_in_karte dk))

/-- Comparison definition following the spec wording for silent_students:
all known students with zero utterances in the transcript, students
appearing only in the karte included. -/
def silent_students_spec (df : List Utterance) (dk : List KarteEntry) : List String :=
  (all_students df dk).filter
    (fun s => (df.filter (fun u => u.speaker == s)).length == 0)

/-- One prioritized recommendation record. -/
structure Suggestion where
  category : String
  suggestion : String
  priority : String
deriving DecidableEq

/-- Attention keywords of line 152. -/
def attention_keywords : List String := ["集中", "注意", "騒ぐ", "立ち歩く", "忘れ物"]

/-- Support keywords of line 153. -/
def support_keywords : List String := ["理解", "困る", "分からない", "質問"]

/-- Social keywords of line 154. -/
def social_keywords : List String := ["友達", "仲良し", "対立", "孤立"]

/-- Line 130: number of non teacher utterances. -/
def total_statements (df : List Utterance) : Nat :=
  (df.filter (fun u => u.speaker != teacher)).length

/-- Line 124: number of utterances of one speaker. -/
def statement_count (df : List Utterance) (s : String) : Nat :=
  (df.filter (fun u => u.speaker == s)).length

/-- Line 292: the displayed participation rate, zero when no non teacher
utterance exists. Python float arithmetic is modelled by exact rationals. -/
def participation_rate (df : List Utterance) (s : String) : ℚ :=
  if 0 < total_statements df then
    (statement_count df s : ℚ) / (total_statements df : ℚ)
  else 0

/-- Lines 147 to 178: the karte based block of the per student suggestion
engine. Each keyword loop of the source appends one suggestion per matching
keyword, which is the filter and map below. -/
def karte_suggestions (dk : List KarteEntry) (student_name : String) : List Suggestion :=
  let student_karte := dk.filter (fun k => k.student == student_name)
  if 0 < student_karte.length then
    let karte_text := String.intercalate " " (student_karte.map (fun k => k.note))
    ((attention_keywords.filter (fun kw => strContains karte_text kw)).map
      (fun kw =>
        ⟨"行動支援",
         student_name ++ "さんの" ++ kw ++ "に関する記録があります。座席配置や役割分担を工夫し、集中しやすい環境を整えましょう。",
         "high"⟩)) ++
    ((support_keywords.filter (fun kw => strContains karte_text kw)).map
      (fun _ =>
        ⟨"学習支援",
         student_name ++ "さんの学習面でのサポートが必要です。個別指導の時間を設けたり、理解度を確認する機会を増やしましょう。",
         "high"⟩)) ++
    ((social_keywords.filter (fun kw => strContains karte_text kw)).map
      (fun _ =>
        ⟨"人間関係",
         student_name ++ "さんの人間関係に注意が必要です。グループ活動の組み合わせを工夫し、良好な関係構築を支援しましょう。",
         "medium"⟩))
  else []

/-- Lines 118 to 180: the per student suggestion engine, the participation
rate block of lines 129 to 145 followed by the karte block. The rate local
variable of the source is inlined. -/
def generate_teaching_suggestions (df : List Utterance) (dk : List KarteEntry)
    (student_name : String) : List Suggestion :=
  (if 0 < total_statements df then
    (if (statement_count df student_name : ℚ) / (total_statements df : ℚ) < 1 / 10 then
      [⟨"参加促進",
        student_name ++ "さんの発言機会を意識的に作りましょう。指名や小グループでの活動を増やすことを検討してください。",
        "high"⟩]
     else if 3 / 10 < (statement_count df student_name : ℚ) / (total_statements df : ℚ) then
      [⟨"発言調整",
        student_name ++ "さんは積極的です。他の児童にも発言機会を回すよう配慮し、" ++ student_name ++
          "さんには司会や発表役を任せることを検討してください。",
        "medium"⟩]
     else [])
   else []) ++ karte_suggestions dk student_name

/-- Counts of the per student participation series, as exact rationals. -/
def participation_counts (df : List Utterance) : List ℚ :=
  (student_participation df).map (fun p => (p.2 : ℚ))

/-- pandas std with its default ddof of one is the square root of this
sample variance; the NaN produced when fewer than two values exist is
modelled as none. -/
def participation_var (df : List Utterance) : Option ℚ :=
  let counts := participation_counts df
  let n := counts.length
  if n ≤ 1 then none
  else
    let mean : ℚ := counts.sum / (n : ℚ)
    some ((counts.map (fun x => (x - mean) ^ 2)).sum / ((n : ℚ) - 1))

/-- Line 603 compares the standard deviation with 3; since square root is
monotone on nonnegative values this is variance above 9, and a NaN standard
deviation compares false. -/
def participation_std_gt3 (df : List Utterance) : Bool :=
  match participation_var df with
  | none => false
  | some v => decide (9 < v)

/-- Lines 611 to 620: run lengths of maximal consecutive teacher utterance
blocks, threading the current run counter. -/
def teacherRuns : List Utterance → Nat → List Nat
  | [], cur => if 0 < cur then [cur] else []
  | u :: rest, cur =>
      if u.speaker == teacher then teacherRuns rest (cur + 1)
      else (if 0 < cur then [cur] else []) ++ teacherRuns rest 0

/-- The full teacher run length sequence of a transcript. -/
def teacher_sequences (df : List Utterance) : List Nat := teacherRuns df 0

/-- Python max over a nonempty list of naturals, zero on the empty list. -/
def listMax : List Nat → Nat
  | [] => 0
  | x :: xs => max x (listMax xs)

/-- Lines 587 to 627: the class level suggestion list. The silent student
message of the source interpolates the student names; the interpolated
names are omitted from the modelled text, which no claim inspects. -/
def class_suggestions (df : List Utterance) : List Suggestion :=
  (if 0 < (silent_students df).length then
     [⟨"参加促進",
       "発言していない児童がいます。小グループ活動や指名を活用して参加を促しましょう。",
       "high"⟩]
   else []) ++
  (if 0 < (student_participation df).length ∧ participation_std_gt3 df = true then
     [⟨"発言調整",
       "発言回数に大きな偏りがあります。発言機会を均等に配分する工夫を検討してください。",
       "medium"⟩]
   else []) ++
  (if teacher_sequences df ≠ [] ∧ 5 < listMax (teacher_sequences df) then
     [⟨"授業構成",
       "教師の連続発言が長い部分があります。児童との対話を増やし、理解度を確認しながら進めることを推奨します。",
       "medium"⟩]
   else [])

/-- One manually recorded relationship under some owner. -/
structure RelationshipRecord where
  target : String
  rel_type : String
  timestamp : String
deriving DecidableEq

/-- Line 362 runs pop with the loop index on the owners list; Python
list.pop raises IndexError when the index is out of range, modelled as
none. The loop index is never negative, so negative indices do not arise. -/
def relationships_pop (l : List RelationshipRecord) (i : Nat) :
    Option (List RelationshipRecord) :=
  if i < l.length then some (l.eraseIdx i) else none

/-- Normalized result of one aggregation step on the looked up edge data. -/
def bumpEdge (o : Option EdgeData) (t : IType) : EdgeData :=
  match o with
  | some d => ⟨d.weight + 1, d.types ++ [t]⟩
  | none => ⟨1, [t]⟩

/-- Effect of a batch of events on one looked up edge. -/
def mergeLookup (o : Option EdgeData) (n : Nat) (ts : List IType) : Option EdgeData :=
  match o with
  | some d => some ⟨d.weight + n, d.types ++ ts⟩
  | none => if n = 0 then none else some ⟨n, ts⟩

/-- Pairwise distinctness of the unordered edge keys of a graph. -/
def DistinctKeys (g : List ((String × String) × EdgeData)) : Prop :=
  List.Pairwise (fun x y => pairMatches x.1 y.1 = false) g

/-- Sample transcript for the silent student scenario: known students A, B
and C where only A and B speak. -/
def dfSilent : List Utterance :=
  [⟨1, "教師", "始めます"⟩, ⟨2, "A", "はい"⟩, ⟨3, "B", "どうですか？"⟩]

/-- Karte naming student C, who never speaks in dfSilent. -/
def karteSilent : List KarteEntry := [⟨"C", "静かにしている"⟩]

/-- Transcript consisting of a single teacher utterance. -/
def dfTeacherOnly : List Utterance := [⟨1, "教師", "おはようございます"⟩]

/-- Transcript where student A gives one of two student utterances. -/
def dfHalf : List Utterance := [⟨1, "A", "こんにちは"⟩, ⟨2, "B", "やあ"⟩]

/-- Transcript with exactly one speaking student. -/
def dfOne : List Utterance := [⟨1, "A", "はい"⟩]

/-- The end to end scenario transcript of the spec. -/
def dfScenario : List Utterance :=
  [⟨1, "教師", "..."⟩, ⟨2, "伊藤", "180度です？"⟩, ⟨3, "鈴木", "そうです"⟩]

/-- Transcript where the same student speaks twice in a row, the first
utterance carrying a question trigger and the second no trigger at all. -/
def dfSelf : List Utterance := [⟨1, "田中", "どうかな？"⟩, ⟨2, "田中", "わかった"⟩]

/-- Transcript alternating teacher, A, teacher, B. -/
def dfTeacherAB : List Utterance :=
  [⟨1, "教師", "今日は三角形について学びます"⟩, ⟨2, "A", "どう思いますか？"⟩,
   ⟨3, "教師", "いい質問ですね"⟩, ⟨4, "B", "そうだと思います"⟩]

/-- Two adjacent student utterances with a question trigger in the first. -/
def dfAB : List Utterance := [⟨1, "A", "どう？"⟩, ⟨2, "B", "なるほどね"⟩]

/-- One question event between two students. -/
def evQ : List InteractionEvent := [⟨IType.question, "A", "B", "どう？", some "うん"⟩]

/-- Two events between the same unordered pair, in one order. -/
def evPair1 : List InteractionEvent :=
  [⟨IType.question, "A", "B", "どう？", some "そうだ"⟩,
   ⟨IType.agreement, "B", "A", "そうだ", none⟩]

/-- The same two events in the opposite order. -/
def evPair2 : List InteractionEvent :=
  [⟨IType.agreement, "B", "A", "そうだ", none⟩,
   ⟨IType.question, "A", "B", "どう？", some "そうだ"⟩]

/-- Relationship list with two records. -/
def relTwo : List RelationshipRecord :=
  [⟨"B", "仲良し", "2024-01-01 10:00"⟩, ⟨"C", "対立", "2024-01-01 10:05"⟩]

/-- Relationship list with one record. -/
def relOne : List RelationshipRecord := [⟨"B", "仲良し", "2024-01-01 10:00"⟩]

theorem pairMatches_iff (p q : String × String) :
    pairMatches p q = true ↔ (p.1 = q.1 ∧ p.2 = q.2) ∨ (p.1 = q.2 ∧ p.2 = q.1) := by
  simp [pairMatches, Bool.or_eq_true, Bool.and_eq_true, beq_iff_eq]

theorem pairMatches_refl (p : String × String) : pairMatches p p = true := by
  rw [pairMatches_iff]; exact Or.inl ⟨rfl, rfl⟩

theorem pairMatches_symm {p q : String × String} (h : pairMatches p q = true) :
    pairMatches q p = true := by
  rw [pairMatches_iff] at h ⊢
  rcases h with ⟨h1, h2⟩ | ⟨h1, h2⟩
  · exact Or.inl ⟨h1.symm, h2.symm⟩
  · exact Or.inr ⟨h2.symm, h1.symm⟩

theorem pairMatches_trans {p q r : String × String} (h1 : pairMatches p q = true)
    (h2 : pairMatches q r = true) : pairMatches p r = true := by
  rw [pairMatches_iff] at h1 h2 ⊢
  rcases h1 with ⟨ha, hb⟩ | ⟨ha, hb⟩ <;> rcases h2 with ⟨hc, hd⟩ | ⟨hc, hd⟩ <;>
    simp [ha, hb, hc, hd]

theorem pairMatches_false_of_not {p q : String × String}
    (h : ¬pairMatches p q = true) : pairMatches p q = false :=
  Bool.of_not_eq_true h

theorem lookupEdge_updateEdge (e : InteractionEvent)
    (g : List ((String × String) × EdgeData)) (p : String × String) :
    lookupEdge (updateEdge e g) p =
      if pairMatches (epair e) p then some (bumpEdge (lookupEdge g p) e.type)
      else lookupEdge g p := by
  induction g with
  | nil =>
      by_cases hp : pairMatches (epair e) p = true <;>
        simp [updateEdge, lookupEdge, bumpEdge, hp]
  | cons qd rest ih =>
      obtain ⟨q, d⟩ := qd
      by_cases hq : pairMatches q (epair e) = true
      · by_cases hp : pairMatches q p = true
        · have hep : pairMatches (epair e) p = true :=
            pairMatches_trans (pairMatches_symm hq) hp
          simp [updateEdge, lookupEdge, hq, hp, hep, bumpEdge]
        · have hep : ¬pairMatches (epair e) p = true := fun hep =>
            hp (pairMatches_trans hq hep)
          simp [updateEdge, lookupEdge, hq, hp, hep]
      · by_cases hp : pairMatches q p = true
        · have hep : ¬pairMatches (epair e) p = true := fun hep =>
            hq (pairMatches_symm (pairMatches_trans hep (pairMatches_symm hp)))
          simp [updateEdge, lookupEdge, hq, hp, hep]
        · by_cases hep : pairMatches (epair e) p = true <;>
            simp [updateEdge, lookupEdge, hq, hp, hep, ih]

theorem countPair_cons (e : InteractionEvent) (rest : List InteractionEvent)
    (p : String × String) :
    countPair (e :: rest) p =
      (if pairMatches (epair e) p then 1 else 0) + countPair rest p := by
  by_cases h : pairMatches (epair e) p = true <;>
    simp [countPair, List.filter_cons, h, Nat.add_comm]

theorem typesOf_cons (e : InteractionEvent) (rest : List InteractionEvent)
    (p : String × String) :
    typesOf (e :: rest) p =
      (if pairMatches (epair e) p then [e.type] else []) ++ typesOf rest p := by
  by_cases h : pairMatches (epair e) p = true <;>
    simp [typesOf, List.filter_cons, h]

theorem typesOf_length (events : List InteractionEvent) (p : String × String) :
    (typesOf events p).length = countPair events p := by
  simp [typesOf, countPair]

theorem lookupEdge_foldl (events : List InteractionEvent)
    (g : List ((String × String) × EdgeData)) (p : String × String) :
    lookupEdge (events.foldl (fun acc e => updateEdge e acc) g) p =
      mergeLookup (lookupEdge g p) (countPair events p) (typesOf events p) := by
  induction events generalizing g with
  | nil =>
      cases h : lookupEdge g p <;>
        simp [mergeLookup, countPair, typesOf, h]
  | cons e rest ih =>
      rw [List.foldl_cons, ih, lookupEdge_updateEdge, countPair_cons, typesOf_cons]
      by_cases hep : pairMatches (epair e) p = true
      · rw [if_pos hep, if_pos hep, if_pos hep]
        cases h : lookupEdge g p with
        | some d =>
            simp only [mergeLookup, bumpEdge, h]
            rw [Nat.add_assoc, List.append_assoc]
        | none =>
            simp only [mergeLookup, bumpEdge, h]
            rw [if_neg (by omega)]
      · rw [if_neg hep, if_neg hep, if_neg hep]
        simp

theorem lookupEdge_buildGraph (events : List InteractionEvent) (p : String × String) :
    lookupEdge (buildGraph events) p =
      if countPair events p = 0 then none
      else some ⟨countPair events p, typesOf events p⟩ := by
  have h := lookupEdge_foldl events [] p
  simpa [buildGraph, mergeLookup, lookupEdge] using h

theorem updateEdge_keys {e : InteractionEvent}
    {g : List ((String × String) × EdgeData)} {pd : (String × String) × EdgeData}
    (h : pd ∈ updateEdge e g) : pd.1 = epair e ∨ ∃ d, (pd.1, d) ∈ g := by
  induction g with
  | nil =>
      simp only [updateEdge, List.mem_singleton] at h
      exact Or.inl (by rw [h])
  | cons qd rest ih =>
      obtain ⟨q, d⟩ := qd
      by_cases hq : pairMatches q (epair e) = true
      · rw [updateEdge, if_pos hq] at h
        rcases List.mem_cons.mp h with h1 | h1
        · exact Or.inr ⟨d, by rw [h1]; exact List.mem_cons_self _ _⟩
        · exact Or.inr ⟨pd.2, List.mem_cons_of_mem _ (by simpa using h1)⟩
      · rw [updateEdge, if_neg hq] at h
        rcases List.mem_cons.mp h with h1 | h1
        · exact Or.inr ⟨d, by rw [h1]; exact List.mem_cons_self _ _⟩
        · rcases ih h1 with h2 | ⟨d', h2⟩
          · exact Or.inl h2
          · exact Or.inr ⟨d', List.mem_cons_of_mem _ h2⟩

theorem distinctKeys_updateEdge {e : InteractionEvent}
    {g : List ((String × String) × EdgeData)}
    (h : DistinctKeys g) : DistinctKeys (updateEdge e g) := by
  induction g with
  | nil =>
      simp [updateEdge, DistinctKeys]
  | cons qd rest ih =>
      obtain ⟨q, d⟩ := qd
      rcases List.pairwise_cons.mp h with ⟨hq, hrest⟩
      by_cases he : pairMatches q (epair e) = true
      · rw [DistinctKeys, updateEdge, if_pos he]
        exact List.pairwise_cons.mpr ⟨fun y hy => hq y hy, hrest⟩
      · rw [DistinctKeys, updateEdge, if_neg he]
        refine List.pairwise_cons.mpr ⟨?_, ih hrest⟩
        intro y hy
        rcases updateEdge_keys hy with h1 | ⟨d', h1⟩
        · rw [h1]
          exact pairMatches_false_of_not he
        · exact hq (y.1, d') h1

theorem distinctKeys_buildGraph (events : List InteractionEvent) :
    DistinctKeys (buildGraph events) := by
  have main : ∀ g, DistinctKeys g →
      DistinctKeys (events.foldl (fun acc e => updateEdge e acc) g) := by
    induction events with
    | nil => intro g hg; simpa using hg
    | cons e rest ih =>
        intro g hg
        exact ih _ (distinctKeys_updateEdge hg)
  simpa [buildGraph] using main [] (by simp [DistinctKeys])

theorem lookupEdge_of_mem :
    ∀ {g : List ((String × String) × EdgeData)}, DistinctKeys g →
      ∀ {pd : (String × String) × EdgeData}, pd ∈ g → lookupEdge g pd.1 = some pd.2
  | [], _, _, hm => by simp at hm
  | (q, d) :: rest, h, pd, hm => by
      rcases List.pairwise_cons.mp h with ⟨hq, hrest⟩
      rcases List.mem_cons.mp hm with h1 | h1
      · rw [h1]
        simp [lookupEdge, pairMatches_refl]
      · have hf : pairMatches q pd.1 = false := hq pd h1
        simp [lookupEdge, hf, lookupEdge_of_mem hrest h1]

theorem mem_of_lookupEdge {g : List ((String × String) × EdgeData)}
    {p : String × String} {d : EdgeData} (h : lookupEdge g p = some d) :
    ∃ k, (k, d) ∈ g ∧ pairMatches k p = true := by
  induction g with
  | nil => simp [lookupEdge] at h
  | cons qd rest ih =>
      obtain ⟨q, d'⟩ := qd
      by_cases hq : pairMatches q p = true
      · rw [lookupEdge, if_pos hq] at h
        injection h with h2
        exact ⟨q, by rw [h2]; exact List.mem_cons_self _ _, hq⟩
      · rw [lookupEdge, if_neg hq] at h
        obtain ⟨k, hk, hkp⟩ := ih h
        exact ⟨k, List.mem_cons_of_mem _ hk, hkp⟩

theorem exists_event_of_countPair_pos {events : List InteractionEvent}
    {p : String × String} (h : 0 < countPair events p) :
    ∃ e ∈ events, pairMatches (epair e) p = true := by
  have hne : events.filter (fun e => pairMatches (epair e) p) ≠ [] := by
    intro hnil
    rw [countPair, hnil] at h
    simp at h
  obtain ⟨e, he⟩ := List.exists_mem_of_ne_nil _ hne
  exact ⟨e, (List.mem_filter.mp he).1, (List.mem_filter.mp he).2⟩

theorem graphWeight_buildGraph (events : List InteractionEvent) (a b : String) :
    graphWeight (buildGraph events) a b = countPair events (a, b) := by
  unfold graphWeight
  rw [lookupEdge_buildGraph]
  by_cases hc : countPair events (a, b) = 0
  · simp [hc]
  · simp [hc]

theorem graphTypes_buildGraph (events : List InteractionEvent) (a b : String) :
    graphTypes (buildGraph events) a b = (typesOf events (a, b) : Multiset IType) := by
  unfold graphTypes
  rw [lookupEdge_buildGraph]
  by_cases hc : countPair events (a, b) = 0
  · have hnil : typesOf events (a, b) = [] :=
      List.length_eq_zero.mp (by rw [typesOf_length]; exact hc)
    simp [hc, hnil]
  · simp [hc]

theorem buildGraph_endpoint_iff (events : List InteractionEvent) (x : String) :
    ((buildGraph events).any (fun pd => pd.1.1 == x || pd.1.2 == x) = true) ↔
      (events.any (fun e => e.source == x || e.target == x) = true) := by
  rw [List.any_eq_true, List.any_eq_true]
  constructor
  · rintro ⟨pd, hpd, hx⟩
    have hl := lookupEdge_of_mem (distinctKeys_buildGraph events) hpd
    rw [lookupEdge_buildGraph] at hl
    by_cases hc : countPair events pd.1 = 0
    · rw [if_pos hc] at hl
      exact absurd hl (by simp)
    · obtain ⟨e, he, hep⟩ := exists_event_of_countPair_pos (Nat.pos_of_ne_zero hc)
      refine ⟨e, he, ?_⟩
      rw [pairMatches_iff] at hep
      simp only [epair] at hep
      simp only [Bool.or_eq_true, beq_iff_eq] at hx ⊢
      rcases hep with ⟨h1, h2⟩ | ⟨h1, h2⟩ <;> rcases hx with hx | hx <;>
        simp [h1, h2, hx]
  · rintro ⟨e, he, hx⟩
    have hmem : e ∈ events.filter (fun e' => pairMatches (epair e') (epair e)) :=
      List.mem_filter.mpr ⟨he, pairMatches_refl (epair e)⟩
    have hc : 0 < countPair events (epair e) := List.length_pos_of_mem hmem
    have hl : lookupEdge (buildGraph events) (epair e) =
        some ⟨countPair events (epair e), typesOf events (epair e)⟩ := by
      rw [lookupEdge_buildGraph, if_neg (Nat.pos_iff_ne_zero.mp hc)]
    obtain ⟨k, hk, hkp⟩ := mem_of_lookupEdge hl
    refine ⟨(k, ⟨countPair events (epair e), typesOf events (epair e)⟩), hk, ?_⟩
    rw [pairMatches_iff] at hkp
    simp only [epair] at hkp
    simp only [Bool.or_eq_true, beq_iff_eq] at hx ⊢
    rcases hkp with ⟨h1, h2⟩ | ⟨h1, h2⟩ <;> rcases hx with hx | hx <;>
      simp [h1, h2, hx]

/-- Claim C8: on the end to end transcript the classifier emits exactly one
question event from 伊藤 to 鈴木 and one agreement event from 鈴木 to 伊藤,
and the resulting graph has exactly one edge between 伊藤 and 鈴木 with
weight 2 carrying the types question and agreement. -/
theorem end_to_end_scenario :
    analyze_student_interactions dfScenario =
      [⟨IType.question, "伊藤", "鈴木", "180度です？", some "そうです"⟩,
       ⟨IType.agreement, "鈴木", "伊藤", "そうです", none⟩] ∧
    buildGraph (analyze_student_interactions dfScenario) =
      [(("伊藤", "鈴木"), ⟨2, [IType.question, IType.agreement]⟩)] := by
  exact ⟨by decide, by decide⟩

/-- Claim C9: the classifier does not require source and target to differ.
On a transcript where 田中 speaks twice in a row with a question trigger in
the first utterance, a question event with source equal to target is
emitted and the graph builder creates a self loop edge of weight one. -/
theorem self_loop_possible :
    analyze_student_interactions dfSelf =
      [⟨IType.question, "田中", "田中", "どうかな？", some "わかった"⟩] ∧
    buildGraph (analyze_student_interactions dfSelf) =
      [(("田中", "田中"), ⟨1, [IType.question]⟩)] ∧
    1 ≤ graphWeight (buildGraph (analyze_student_interactions dfSelf)) "田中" "田中" := by
  exact ⟨by decide, by decide, by decide⟩

/-- Claim C2: for every edge of a built interaction graph, the edge weight
equals the length of its types list, and both equal the number of events
whose unordered source and target pair is the edge key. -/
theorem edge_weight_eq_types_length (events : List InteractionEvent)
    (pd : (String × String) × EdgeData) (h : pd ∈ buildGraph events) :
    pd.2.weight = pd.2.types.length ∧ pd.2.weight = countPair events pd.1 := by
  have hl := lookupEdge_of_mem (distinctKeys_buildGraph events) h
  rw [lookupEdge_buildGraph] at hl
  by_cases hc : countPair events pd.1 = 0
  · rw [if_pos hc] at hl
    exact absurd hl (by simp)
  · rw [if_neg hc] at hl
    injection hl with h2
    rw [← h2]
    exact ⟨(typesOf_length events pd.1).symm, rfl⟩

/-- Witness for claim C2 at a one event graph. -/
theorem edge_weight_eq_types_length_witness :
    ((("A", "B"), (⟨1, [IType.question]⟩ : EdgeData)) ∈ buildGraph evQ) ∧
      ((1 : Nat) = [IType.question].length ∧ 1 = countPair evQ ("A", "B")) :=
  ⟨by decide, edge_weight_eq_types_length evQ (("A", "B"), ⟨1, [IType.question]⟩) (by decide)⟩

/-- Claim C7: the interaction graph is independent of the processing order
of the event list: permuted event lists give the same node membership and,
for every unordered student pair, the same weight and the same multiset of
interaction types. -/
theorem buildGraph_perm_invariant (ev ev' : List InteractionEvent)
    (students : List String) (h : ev.Perm ev') :
    (∀ x, nodeMem students (buildGraph ev) x = nodeMem students (buildGraph ev') x) ∧
    (∀ a b, graphWeight (buildGraph ev) a b = graphWeight (buildGraph ev') a b ∧
      graphTypes (buildGraph ev) a b = graphTypes (buildGraph ev') a b) := by
  constructor
  · intro x
    unfold nodeMem
    have h1 : (buildGraph ev).any (fun pd => pd.1.1 == x || pd.1.2 == x) =
        (buildGraph ev').any (fun pd => pd.1.1 == x || pd.1.2 == x) := by
      rw [Bool.eq_iff_iff, buildGraph_endpoint_iff, buildGraph_endpoint_iff,
        List.any_eq_true, List.any_eq_true]
      constructor
      · rintro ⟨e, he, hx⟩
        exact ⟨e, h.mem_iff.mp he, hx⟩
      · rintro ⟨e, he, hx⟩
        exact ⟨e, h.mem_iff.mpr he, hx⟩
    rw [h1]
  · intro a b
    constructor
    · rw [graphWeight_buildGraph, graphWeight_buildGraph]
      exact (h.filter _).length_eq
    · rw [graphTypes_buildGraph, graphTypes_buildGraph]
      exact Multiset.coe_eq_coe.mpr ((h.filter _).map _)

/-- Witness for claim C7 on the two orderings of a two event list. -/
theorem buildGraph_perm_invariant_witness :
    graphWeight (buildGraph evPair1) "A" "B" = graphWeight (buildGraph evPair2) "A" "B" ∧
    graphTypes (buildGraph evPair1) "A" "B" = graphTypes (buildGraph evPair2) "A" "B" :=
  (buildGraph_perm_invariant evPair1 evPair2 ["A", "B"] (by decide)).2 "A" "B"

/-- Claim C1: per adjacent non teacher pair, when the second utterance
carries both an agreement trigger and a disagreement trigger, exactly one
agreement event and no disagreement event is emitted, while the question
check on the first utterance independently contributes exactly one question
event when a question trigger is present and none otherwise. -/
theorem agreement_priority (s1 c1 s2 c2 : String)
    (h1 : s1 ≠ teacher) (h2 : s2 ≠ teacher)
    (ha : containsAny c2 agreementWords = true)
    (hd : containsAny c2 disagreementWords = true) :
    ((pairEvents s1 c1 s2 c2).filter (fun e => e.type == IType.agreement)).length = 1 ∧
    ((pairEvents s1 c1 s2 c2).filter (fun e => e.type == IType.disagreement)).length = 0 ∧
    ((pairEvents s1 c1 s2 c2).filter (fun e => e.type == IType.question)).length =
      (if containsAny c1 questionWords = true then 1 else 0) := by
  have hdup : containsAny c2 disagreementWords = true := hd
  unfold pairEvents
  rw [if_pos (And.intro h1 h2), if_pos ha]
  by_cases hq : containsAny c1 questionWords = true
  · rw [if_pos hq, if_pos hq]
    exact ⟨rfl, rfl, rfl⟩
  · rw [if_neg hq, if_neg hq]
    exact ⟨rfl, rfl, rfl⟩

/-- Witness for claim C1 on the spec example pair. -/
theorem agreement_priority_witness :
    ("山田" ≠ teacher) ∧ ("佐藤" ≠ teacher) ∧
    containsAny "そう、同じ意見だけど違うと思う" agreementWords = true ∧
    containsAny "そう、同じ意見だけど違うと思う" disagreementWords = true ∧
    (((pairEvents "山田" "それは面白いね？" "佐藤" "そう、同じ意見だけど違うと思う").filter
        (fun e => e.type == IType.agreement)).length = 1 ∧
     ((pairEvents "山田" "それは面白いね？" "佐藤" "そう、同じ意見だけど違うと思う").filter
        (fun e => e.type == IType.disagreement)).length = 0 ∧
     ((pairEvents "山田" "それは面白いね？" "佐藤" "そう、同じ意見だけど違うと思う").filter
        (fun e => e.type == IType.question)).length =
       (if containsAny "それは面白いね？" questionWords = true then 1 else 0)) :=
  ⟨by decide, by decide, by decide, by decide,
    agreement_priority "山田" "それは面白いね？" "佐藤" "そう、同じ意見だけど違うと思う"
      (by decide) (by decide) (by decide) (by decide)⟩

theorem mem_pairEvents {s1 c1 s2 c2 : String} {e : InteractionEvent}
    (h : e ∈ pairEvents s1 c1 s2 c2) :
    (e.source = s1 ∨ e.source = s2) ∧ (e.target = s1 ∨ e.target = s2) ∧
      s1 ≠ teacher ∧ s2 ≠ teacher := by
  unfold pairEvents at h
  by_cases ht : s1 ≠ teacher ∧ s2 ≠ teacher
  · rw [if_pos ht] at h
    rcases List.mem_append.mp h with h' | h'
    · by_cases hq : containsAny c1 questionWords = true
      · rw [if_pos hq] at h'
        rw [List.mem_singleton] at h'
        rw [h']
        exact ⟨Or.inl rfl, Or.inr rfl, ht.1, ht.2⟩
      · rw [if_neg hq] at h'
        simp at h'
    · by_cases hag : containsAny c2 agreementWords = true
      · rw [if_pos hag] at h'
        rw [List.mem_singleton] at h'
        rw [h']
        exact ⟨Or.inr rfl, Or.inl rfl, ht.1, ht.2⟩
      · rw [if_neg hag] at h'
        by_cases hdis : containsAny c2 disagreementWords = true
        · rw [if_pos hdis] at h'
          rw [List.mem_singleton] at h'
          rw [h']
          exact ⟨Or.inr rfl, Or.inl rfl, ht.1, ht.2⟩
        · rw [if_neg hdis] at h'
          simp at h'
  · rw [if_neg ht] at h
    simp at h

/-- Claim C6: no interaction event involves the teacher. A pair with the
teacher on either side contributes no event, every emitted event has non
teacher source and target that are speakers observed in the transcript, and
the alternating transcript teacher, A, teacher, B yields no event at all. -/
theorem no_teacher_events :
    (∀ s1 c1 s2 c2, s1 = teacher ∨ s2 = teacher → pairEvents s1 c1 s2 c2 = []) ∧
    (∀ df e, e ∈ analyze_student_interactions df →
      e.source ≠ teacher ∧ e.target ≠ teacher ∧
      e.source ∈ df.map (fun u => u.speaker) ∧
      e.target ∈ df.map (fun u => u.speaker)) ∧
    analyze_student_interactions dfTeacherAB = [] := by
  refine ⟨?_, ?_, by decide⟩
  · intro s1 c1 s2 c2 hteach
    unfold pairEvents
    rw [if_neg]
    rintro ⟨hn1, hn2⟩
    rcases hteach with h | h
    · exact hn1 h
    · exact hn2 h
  · intro df
    induction df with
    | nil =>
        intro e he
        simp [analyze_student_interactions] at he
    | cons u rest ih =>
        cases rest with
        | nil =>
            intro e he
            simp [analyze_student_interactions] at he
        | cons v rest' =>
            intro e he
            rw [analyze_student_interactions] at he
            rcases List.mem_append.mp he with h' | h'
            · obtain ⟨hs, htg, hu, hv⟩ := mem_pairEvents h'
              refine ⟨?_, ?_, ?_, ?_⟩
              · rcases hs with h | h <;> rw [h] <;> assumption
              · rcases htg with h | h <;> rw [h] <;> assumption
              · rcases hs with h | h <;> rw [h] <;> simp
              · rcases htg with h | h <;> rw [h] <;> simp
            · obtain ⟨ha, hb, hc, hd⟩ := ih e h'
              refine ⟨ha, hb, ?_, ?_⟩
              · rw [List.map_cons]
                exact List.mem_cons_of_mem _ hc
              · rw [List.map_cons]
                exact List.mem_cons_of_mem _ hd

/-- Witness for claim C6: the first part at a concrete teacher pair and the
second part at a concrete event of a two student transcript. -/
theorem no_teacher_events_witness :
    pairEvents teacher "こんにちは" "A" "はい" = [] ∧
    ((⟨IType.question, "A", "B", "どう？", some "なるほどね"⟩ : InteractionEvent).source ≠ teacher ∧
     (⟨IType.question, "A", "B", "どう？", some "なるほどね"⟩ : InteractionEvent).target ≠ teacher) :=
  ⟨no_teacher_events.1 teacher "こんにちは" "A" "はい" (Or.inl rfl),
   ⟨(no_teacher_events.2.1 dfAB ⟨IType.question, "A", "B", "どう？", some "なるほどね"⟩
       (by decide)).1,
    (no_teacher_events.2.1 dfAB ⟨IType.question, "A", "B", "どう？", some "なるほどね"⟩
       (by decide)).2.1⟩⟩

theorem silent_students_nil (df : List Utterance) : silent_students df = [] := by
  rw [silent_students]
  rw [List.filter_eq_nil_iff]
  intro s hs
  intro hcontra
  have hany : (student_participation df).any (fun p => p.1 == s) = true := by
    rw [List.any_eq_true]
    refine ⟨(s, (nonTeacherSpeakers df).count s), ?_, by simp⟩
    exact List.mem_map.mpr ⟨s, hs, rfl⟩
  rw [hany] at hcontra
  simp at hcontra

theorem karte_suggestions_categories {dk : List KarteEntry} {s : String}
    {sug : Suggestion} (h : sug ∈ karte_suggestions dk s) :
    sug.category = "行動支援" ∨ sug.category = "学習支援" ∨ sug.category = "人間関係" := by
  simp only [karte_suggestions] at h
  by_cases hp : 0 < (dk.filter (fun k => k.student == s)).length
  · rw [if_pos hp] at h
    rcases List.mem_append.mp h with h' | h'
    · rcases List.mem_append.mp h' with h'' | h''
      · obtain ⟨kw, _, heq⟩ := List.mem_map.mp h''
        rw [← heq]
        exact Or.inl rfl
      · obtain ⟨kw, _, heq⟩ := List.mem_map.mp h''
        rw [← heq]
        exact Or.inr (Or.inl rfl)
    · obtain ⟨kw, _, heq⟩ := List.mem_map.mp h'
      rw [← heq]
      exact Or.inr (Or.inr rfl)
  · rw [if_neg hp] at h
    simp at h

theorem karte_suggestions_filter (dk : List KarteEntry) (s cat : String)
    (h1 : cat ≠ "行動支援") (h2 : cat ≠ "学習支援") (h3 : cat ≠ "人間関係") :
    (karte_suggestions dk s).filter (fun sug => sug.category == cat) = [] := by
  rw [List.filter_eq_nil_iff]
  intro sug hm hpred
  rw [beq_iff_eq] at hpred
  rcases karte_suggestions_categories hm with h | h | h
  · exact absurd (hpred.symm.trans h) h1
  · exact absurd (hpred.symm.trans h) h2
  · exact absurd (hpred.symm.trans h) h3

/-- Claim C3 evaluation: the silent student computation of the source is
dead code. It filters students_in_class, which by construction contains
exactly the students who spoke, against the value_counts index of the same
column, so it is empty on every transcript; on the scenario with speakers A
and B and karte student C it returns the empty list while the set of known
students with zero utterances is C. -/
theorem silent_students_dead :
    (∀ df, silent_students df = []) ∧
    silent_students dfSilent = [] ∧
    silent_students_spec dfSilent karteSilent = ["C"] :=
  ⟨silent_students_nil, by decide, by decide⟩

/-- Claim C4 counterexample: popping index 1 from a one element list is an
IndexError, modelled as none, not a silent no op returning the list. -/
theorem pop_out_of_range_not_noop :
    relationships_pop relOne 1 = none ∧ relationships_pop relOne 1 ≠ some relOne := by
  exact ⟨rfl, by decide⟩

/-- Claim C4 amended: remove deletes the record at the given position when
the index is in range, and raises IndexError, modelled as none, when the
index is out of range for the owners current list. -/
theorem pop_semantics (l : List RelationshipRecord) (i : Nat) :
    (i < l.length → relationships_pop l i = some (l.eraseIdx i)) ∧
    (l.length ≤ i → relationships_pop l i = none) := by
  constructor
  · intro h
    rw [relationships_pop, if_pos h]
  · intro h
    rw [relationships_pop, if_neg (Nat.not_lt.mpr h)]

/-- Witness for claim C4 at an in range and an out of range index. -/
theorem pop_semantics_witness :
    relationships_pop relTwo 0 = some [⟨"C", "対立", "2024-01-01 10:05"⟩] ∧
    relationships_pop relOne 5 = none :=
  ⟨(pop_semantics relTwo 0).1 (by decide), (pop_semantics relOne 5).2 (by decide)⟩

/-- Claim C5 counterexample: on a transcript with no student utterance the
displayed participation rate is zero, hence below the ten percent
threshold, yet the per student engine emits no suggestion at all, because
the rate branch is guarded by a positive total. -/
theorem participation_rule_gap :
    participation_rate dfTeacherOnly "A" = 0 ∧
    participation_rate dfTeacherOnly "A" < 1 / 10 ∧
    generate_teaching_suggestions dfTeacherOnly [] "A" = [] := by
  refine ⟨rfl, ?_, by decide⟩
  have h0 : participation_rate dfTeacherOnly "A" = 0 := rfl
  rw [h0]
  norm_num

/-- Claim C5 amended: the displayed rate equals count over total when the
total is positive, and the per student engine emits the high priority under
participation suggestion exactly when the total is positive and the rate is
below one tenth, and the medium priority delegate leadership suggestion
exactly when the total is positive and the rate is above three tenths. -/
theorem participation_suggestions (df : List Utterance) (dk : List KarteEntry)
    (s : String) :
    (0 < total_statements df →
      participation_rate df s = (statement_count df s : ℚ) / (total_statements df : ℚ)) ∧
    ((generate_teaching_suggestions df dk s).filter
        (fun sug => sug.category == "参加促進") =
      if 0 < total_statements df ∧ participation_rate df s < 1 / 10 then
        [⟨"参加促進",
          s ++ "さんの発言機会を意識的に作りましょう。指名や小グループでの活動を増やすことを検討してください。",
          "high"⟩]
      else []) ∧
    ((generate_teaching_suggestions df dk s).filter
        (fun sug => sug.category == "発言調整") =
      if 0 < total_statements df ∧ 3 / 10 < participation_rate df s then
        [⟨"発言調整",
          s ++ "さんは積極的です。他の児童にも発言機会を回すよう配慮し、" ++ s ++
            "さんには司会や発表役を任せることを検討してください。",
          "medium"⟩]
      else []) := by
  have hKp := karte_suggestions_filter dk s "参加促進"
    (by decide) (by decide) (by decide)
  have hKd := karte_suggestions_filter dk s "発言調整"
    (by decide) (by decide) (by decide)
  refine ⟨fun h => by rw [participation_rate, if_pos h], ?_, ?_⟩
  · rw [generate_teaching_suggestions, List.filter_append, hKp, List.append_nil]
    by_cases ht : 0 < total_statements df
    · have hr : participation_rate df s =
          (statement_count df s : ℚ) / (total_statements df : ℚ) := by
        rw [participation_rate, if_pos ht]
      rw [if_pos ht]
      by_cases h1 : (statement_count df s : ℚ) / (total_statements df : ℚ) < 1 / 10
      · rw [if_pos h1,
          if_pos (show 0 < total_statements df ∧ participation_rate df s < 1 / 10 from
            ⟨ht, by rw [hr]; exact h1⟩)]
        rfl
      · rw [if_neg h1,
          if_neg (show ¬(0 < total_statements df ∧ participation_rate df s < 1 / 10) from
            fun hc => h1 (by rw [← hr]; exact hc.2))]
        by_cases h2 : 3 / 10 < (statement_count df s : ℚ) / (total_statements df : ℚ)
        · rw [if_pos h2]
          rfl
        · rw [if_neg h2]
          rfl
    · rw [if_neg ht,
        if_neg (show ¬(0 < total_statements df ∧ participation_rate df s < 1 / 10) from
          fun hc => ht hc.1)]
      rfl
  · rw [generate_teaching_suggestions, List.filter_append, hKd, List.append_nil]
    by_cases ht : 0 < total_statements df
    · have hr : participation_rate df s =
          (statement_count df s : ℚ) / (total_statements df : ℚ) := by
        rw [participation_rate, if_pos ht]
      rw [if_pos ht]
      by_cases h1 : (statement_count df s : ℚ) / (total_statements df : ℚ) < 1 / 10
      · have h2 : ¬(0 < total_statements df ∧ 3 / 10 < participation_rate df s) := by
          rintro ⟨_, hc⟩
          rw [hr] at hc
          exact absurd (lt_trans hc h1) (by norm_num)
        rw [if_pos h1, if_neg h2]
        rfl
      · rw [if_neg h1]
        by_cases h2 : 3 / 10 < (statement_count df s : ℚ) / (total_statements df : ℚ)
        · rw [if_pos h2,
            if_pos (show 0 < total_statements df ∧ 3 / 10 < participation_rate df s from
              ⟨ht, by rw [hr]; exact h2⟩)]
          rfl
        · rw [if_neg h2,
            if_neg (show ¬(0 < total_statements df ∧ 3 / 10 < participation_rate df s) from
              fun hc => h2 (by rw [← hr]; exact hc.2))]
          rfl
    · rw [if_neg ht,
        if_neg (show ¬(0 < total_statements df ∧ 3 / 10 < participation_rate df s) from
          fun hc => ht hc.1)]
      rfl

/-- Witness for claim C5 on a transcript where A gives one of two student
utterances, so the rate is one half and the delegate suggestion fires. -/
theorem participation_suggestions_witness :
    0 < total_statements dfHalf ∧
    participation_rate dfHalf "A" =
      (statement_count dfHalf "A" : ℚ) / (total_statements dfHalf : ℚ) ∧
    (generate_teaching_suggestions dfHalf [] "A").filter
        (fun sug => sug.category == "発言調整") =
      [⟨"発言調整",
        "A" ++ "さんは積極的です。他の児童にも発言機会を回すよう配慮し、" ++ "A" ++
          "さんには司会や発表役を任せることを検討してください。",
        "medium"⟩] := by
  refine ⟨by decide, (participation_suggestions dfHalf [] "A").1 (by decide), ?_⟩
  rw [(participation_suggestions dfHalf [] "A").2.2]
  rw [if_pos]
  constructor
  · decide
  · have hc : statement_count dfHalf "A" = 1 := by decide
    have htot : total_statements dfHalf = 2 := by decide
    rw [participation_rate, if_pos (by decide : 0 < total_statements dfHalf), hc, htot]
    norm_num

/-- Claim C10: the uneven participation rule uses the sample standard
deviation with the pandas default ddof of one; when exactly one student has
spoken that deviation is NaN, modelled as none, the comparison with 3 is
false, and the medium priority balance suggestion is never emitted. -/
theorem single_speaker_no_balance (df : List Utterance)
    (h : (students_in_class df).length = 1) :
    participation_var df = none ∧
    (class_suggestions df).filter (fun sug => sug.category == "発言調整") = [] := by
  have hn : (participation_counts df).length = 1 := by
    simpa [participation_counts, student_participation, value_counts,
      students_in_class] using h
  have hv : participation_var df = none := by
    simp only [participation_var]
    simp [hn]
  refine ⟨hv, ?_⟩
  have hflag : participation_std_gt3 df = false := by
    rw [participation_std_gt3, hv]
  rw [class_suggestions, List.filter_append, List.filter_append,
    silent_students_nil df, if_neg (by simp), if_neg (by simp [hflag])]
  by_cases h3 : teacher_sequences df ≠ [] ∧ 5 < listMax (teacher_sequences df)
  · rw [if_pos h3]
    rfl
  · rw [if_neg h3]
    rfl

/-- Witness for claim C10 on the one speaker transcript. -/
theorem single_speaker_no_balance_witness :
    (students_in_class dfOne).length = 1 ∧
    participation_var dfOne = none ∧
    (class_suggestions dfOne).filter (fun sug => sug.category == "発言調整") = [] :=
  ⟨by decide, (single_speaker_no_balance dfOne (by decide)).1,
    (single_speaker_no_balance dfOne (by decide)).2⟩
